import Mathlib

/-!
Shallow embedding of `src/command.ts` of the fluent-command repository:
a fluent builder (`FluentCommand`) that accumulates an executable name,
an argument vector, working-directory fragments and per-channel observer
callbacks, then executes the process, multiplexing stdout/stderr chunks
into three accumulators while fanning them out to observers, and finally
projects the accumulated state into a success/error outcome.

Modelling conventions:
- JS strings are Lean `String`s; `number | null` exit codes are `Option Int`;
  `NodeJS.Signals | null` is `Option String`.
- Observer callbacks are modelled by identity (`Option Nat` slot per
  channel); their invocations, and writes mirrored to the controlling
  process streams, are recorded as an explicit `Effect` trace.
- Time (`performance.now()`) is passed in explicitly as `Nat` instants;
  a duration is their `Int` difference.
-/

/-- The two OS stream channels a chunk can arrive on. -/
inductive Channel where
  | stdout
  | stderr
deriving DecidableEq, Repr

/-- Source constant `SPAWN_MISSING_EXE_CODE` from `command.ts`: the sentinel exit code
recorded when the OS could not create the process at all. -/
def SPAWN_MISSING_EXE_CODE : Int := -2

/-- Source type `SpawnInfo` from `command.ts`: payload passed to the spawn observer. -/
structure SpawnInfo where
  executable : String
  commandArgs : List String
  cwd : String
deriving DecidableEq, Repr

/-- Source type `FluentCommandSuccess` from `command.ts`: the success outcome record. -/
structure FluentCommandSuccess where
  executable : String
  commandArgs : List String
  cwd : String
  duration : Int
  output : String
  stderr : String
  stdout : String
deriving DecidableEq, Repr

/-- Source type `FluentCommandError` from `command.ts`: the failure outcome record;
`code?`/`signal?` are optional fields, absent when unknown. -/
structure FluentCommandError extends FluentCommandSuccess where
  code : Option Int
  signal : Option String
deriving DecidableEq, Repr

/-- One observable side effect of the executor: an observer invocation or a
chunk mirrored to the controlling process's own stdout/stderr stream. -/
inductive Effect where
  | stdoutHandlerCall (h : Nat) (chunk : String)
  | stderrHandlerCall (h : Nat) (chunk : String)
  | outputHandlerCall (h : Nat) (chunk : String)
  | spawnHandlerCall (h : Nat) (info : SpawnInfo)
  | mirrorWrite (ch : Channel) (chunk : String)
deriving DecidableEq, Repr

/-- Whether an effect is a mirror write to the controlling process's streams. -/
def Effect.isMirror : Effect → Bool
  | .mirrorWrite _ _ => true
  | _ => false

/-- The chunk text an effect carries (the spawn payload carries none). -/
def Effect.chunkText : Effect → Option String
  | .stdoutHandlerCall _ c => some c
  | .stderrHandlerCall _ c => some c
  | .outputHandlerCall _ c => some c
  | .spawnHandlerCall _ _ => none
  | .mirrorWrite _ c => some c

/-- The private state of a `FluentCommand` instance in `command.ts`. -/
structure FluentCommand where
  executable : String
  commandArgs : List String
  startTime : Nat
  stdoutContents : String
  stderrContents : String
  outputContents : String
  code : Option Int
  signal : Option String
  cwdPath : String
  extraCwdPathPieces : List String
  resolvedCwd : String
  spawnHandler : Option Nat
  stdoutHandler : Option Nat
  stderrHandler : Option Nat
  outputHandler : Option Nat
  shouldBeSilent : Bool
deriving DecidableEq, Repr

/-- The constructor `new FluentCommand(executable, ...initialArgs)` /
`fcmd(...)`: all other fields take their declared initial values. -/
def fcmd (executable : String) (initialArgs : List String) : FluentCommand :=
  { executable := executable
    commandArgs := initialArgs
    startTime := 0
    stdoutContents := ""
    stderrContents := ""
    outputContents := ""
    code := none
    signal := none
    cwdPath := ""
    extraCwdPathPieces := []
    resolvedCwd := ""
    spawnHandler := none
    stdoutHandler := none
    stderrHandler := none
    outputHandler := none
    shouldBeSilent := true }

/-- Method `#addArgs`: push the extra arguments onto the argument vector. -/
def FluentCommand.addArgs (s : FluentCommand) (extraArgs : List String) :
    FluentCommand :=
  { s with commandArgs := s.commandArgs ++ extraArgs }

/-- A JS `string | number` option value. -/
inductive OptValue where
  | str (v : String)
  | num (n : Int)
deriving DecidableEq, Repr

/-- Method `#addOptionPair`: when the key is non-empty, append `"-".repeat(dashes)`
followed by the key as one token; a non-empty string value, or any numeric
value (stringified), is appended as a separate token. -/
def FluentCommand.addOptionPair (s : FluentCommand) (dashes : Nat)
    (optionKey : String) (optionValue : Option OptValue) : FluentCommand :=
  let s1 :=
    if optionKey.length > 0 then
      s.addArgs [String.mk (List.replicate dashes (Char.ofNat 45)) ++ optionKey]
    else s
  match optionValue with
  | some (.str v) => if v.length > 0 then s1.addArgs [v] else s1
  | some (.num n) => s1.addArgs [toString n]
  | none => s1

/-- Method `args(anArg, ...extraArgs)`. -/
def FluentCommand.args (s : FluentCommand) (anArg : String)
    (extraArgs : List String) : FluentCommand :=
  s.addArgs (anArg :: extraArgs)

/-- Method `opt(optionKey, optionValue?)`: single-dash option. -/
def FluentCommand.opt (s : FluentCommand) (optionKey : String)
    (optionValue : Option OptValue) : FluentCommand :=
  s.addOptionPair 1 optionKey optionValue

/-- Method `option(optionKey, optionValue?)`: double-dash option. -/
def FluentCommand.option (s : FluentCommand) (optionKey : String)
    (optionValue : Option OptValue) : FluentCommand :=
  s.addOptionPair 2 optionKey optionValue

/-- Method `cwd(cwdPath, ...extraCwdPathPieces)`: record the base fragment and
replace the extra-fragment list; no resolution happens here. -/
def FluentCommand.cwd (s : FluentCommand) (cwdPath : String)
    (extraCwdPathPieces : List String) : FluentCommand :=
  { s with cwdPath := cwdPath, extraCwdPathPieces := extraCwdPathPieces }

/-- Method `onSpawn(spawnHandler)`: store the single spawn observer slot. -/
def FluentCommand.onSpawn (s : FluentCommand) (h : Nat) : FluentCommand :=
  { s with spawnHandler := some h }

/-- Method `onStdout(stdoutHandler)`. -/
def FluentCommand.onStdout (s : FluentCommand) (h : Nat) : FluentCommand :=
  { s with stdoutHandler := some h }

/-- Method `onStderr(stderrHandler)`. -/
def FluentCommand.onStderr (s : FluentCommand) (h : Nat) : FluentCommand :=
  { s with stderrHandler := some h }

/-- Method `onOutput(outputHandler)`. -/
def FluentCommand.onOutput (s : FluentCommand) (h : Nat) : FluentCommand :=
  { s with outputHandler := some h }

/-- JS `String.prototype.trimEnd()`: drop trailing whitespace characters. -/
def trimEnd (s : String) : String :=
  String.mk (s.data.reverse.dropWhile Char.isWhitespace).reverse

/-- Method `#commandSuccess`: project the accumulated state into the outcome
record, trimming trailing whitespace from the three accumulators;
`now` stands for `performance.now()` at settlement. -/
def FluentCommand.commandSuccess (s : FluentCommand) (now : Nat) :
    FluentCommandSuccess :=
  { stdout := trimEnd s.stdoutContents
    stderr := trimEnd s.stderrContents
    output := trimEnd s.outputContents
    executable := s.executable
    commandArgs := s.commandArgs
    cwd := s.resolvedCwd
    duration := (now : Int) - (s.startTime : Int) }

/-- Method `#commandError`: the success projection plus the exit code and signal
when they were observed (`null` fields are left absent). -/
def FluentCommand.commandError (s : FluentCommand) (now : Nat) :
    FluentCommandError :=
  { s.commandSuccess now with code := s.code, signal := s.signal }

/-- Method `#onChunk(source, chunk)`: append the chunk to the per-channel
accumulator and to the combined accumulator, invoke the per-channel
handler and then the combined-output handler when registered, and — unless
the execution is silent — mirror the chunk to the controlling process's
corresponding stream.  Returns the new state and the effect trace. -/
def FluentCommand.onChunk (s : FluentCommand) (source : Channel)
    (chunk : String) : FluentCommand × List Effect :=
  let s1 :=
    match source with
    | .stdout => { s with stdoutContents := s.stdoutContents ++ chunk }
    | .stderr => { s with stderrContents := s.stderrContents ++ chunk }
  let s2 := { s1 with outputContents := s1.outputContents ++ chunk }
  let handlerEffects :=
    match source, (match source with
                   | .stdout => s.stdoutHandler
                   | .stderr => s.stderrHandler) with
    | .stdout, some h => [Effect.stdoutHandlerCall h chunk]
    | .stderr, some h => [Effect.stderrHandlerCall h chunk]
    | _, none => []
  let outputEffects :=
    match s.outputHandler with
    | some h => [Effect.outputHandlerCall h chunk]
    | none => []
  let mirrorEffects :=
    if s.shouldBeSilent then [] else [Effect.mirrorWrite source chunk]
  (s2, handlerEffects ++ outputEffects ++ mirrorEffects)

/-- Method `#onSpawn`: invoke the spawn handler, when registered, with the
executable, argument vector and resolved working directory. -/
def FluentCommand.onSpawnEvent (s : FluentCommand) : List Effect :=
  match s.spawnHandler with
  | some h =>
      [Effect.spawnHandlerCall h
        { executable := s.executable
          commandArgs := s.commandArgs
          cwd := s.resolvedCwd }]
  | none => []

/-- Modelled from the spec: whether a path fragment is absolute — it
starts with the path separator character. -/
def isAbsolutePath (p : String) : Bool :=
  p.data.head? == some (Char.ofNat 47)

/-- Modelled from the spec: one step of the external path-resolution
utility (pathe `resolve`, not part of this repository).  Per §6, each
fragment is resolved relative to the result of the previous step with
normalize-and-join semantics, and an absolute fragment discards
everything computed before it; an empty fragment contributes nothing. -/
def resolveJoin (base frag : String) : String :=
  if frag = "" then base
  else if isAbsolutePath frag then frag
  else base ++ "/" ++ frag

/-- Modelled from the spec: the external path-resolution utility applied
to an anchor and a list of fragments, folding `resolveJoin` left to
right. -/
def resolvePath (anchor : String) (frags : List String) : String :=
  frags.foldl resolveJoin anchor

/-- Modelled from the spec: pathe `resolve` applied to a single path —
"the absolute form of the process's own current directory": an already
absolute path is returned as is, a relative one is anchored at the root. -/
def resolveAbs (p : String) : String := resolveJoin "/" p

/-- The head of `#runOrRead`'s promise executor: record the start
timestamp and resolve the working directory exactly once, as
`resolvePath(resolvePath(cwd()), this.#cwdPath, ...this.#extraCwdPathPieces)`;
`procCwd` stands for the process's own current directory `cwd()`. -/
def FluentCommand.runStart (s : FluentCommand) (procCwd : String)
    (startTime : Nat) : FluentCommand :=
  { s with
    startTime := startTime
    resolvedCwd :=
      resolvePath (resolveAbs procCwd) (s.cwdPath :: s.extraCwdPathPieces) }

/-- The stream of `"data"` events the child process delivers: the chunks
of both channels in real arrival order. -/
def FluentCommand.processChunks (s : FluentCommand)
    (events : List (Channel × String)) : FluentCommand × List Effect :=
  match events with
  | [] => (s, [])
  | (ch, d) :: rest =>
      let p := s.onChunk ch d
      let q := p.1.processChunks rest
      (q.1, p.2 ++ q.2)

/-- What the promise was rejected with: `reject()` from the `close`
handler (no value), a platform error object carrying a string `code`
(the spawn-failure case), or any other error value. -/
inductive RejectErr where
  | closeReject
  | errnoErr (code : String) (message : String)
  | otherErr
deriving DecidableEq, Repr

/-- The error mapper of `#runOrRead` (`ResultAsync.fromThrowable`'s second
argument): when the rejection value is an object with a string `code`,
record the sentinel spawn-failure exit code and push the diagnostic line
`` `${error.code}: ${error.message}` `` through `#onChunk` on the stderr
channel; in every case project the state with `#commandError`. -/
def FluentCommand.errorMapper (s : FluentCommand) (now : Nat) :
    RejectErr → FluentCommand × List Effect × FluentCommandError
  | .errnoErr c m =>
      let s1 := { s with code := some SPAWN_MISSING_EXE_CODE }
      let p := s1.onChunk .stderr (c ++ ": " ++ m)
      (p.1, p.2, p.1.commandError now)
  | _ => (s, [], s.commandError now)

/-- The `close` handler of `#runOrRead` combined with the settlement of the
`ResultAsync`: record the exit code and signal; exit code exactly 0
resolves with `#commandSuccess`, anything else rejects with no value, which
the error mapper turns into `#commandError`. -/
def FluentCommand.onClose (s : FluentCommand) (now : Nat)
    (code : Option Int) (sig : Option String) :
    FluentCommand × List Effect ×
      Except FluentCommandError FluentCommandSuccess :=
  let s1 := { s with code := code, signal := sig }
  if code = some 0 then (s1, [], Except.ok (s1.commandSuccess now))
  else
    let p := s1.errorMapper now .closeReject
    (p.1, p.2.1, Except.error p.2.2)

/-- Method `run()`: clear the silent flag (chunks are mirrored to the controlling
process's streams) before executing. -/
def FluentCommand.run (s : FluentCommand) : FluentCommand :=
  { s with shouldBeSilent := false }

/-- Method `read()`: set the silent flag (nothing is mirrored) before executing. -/
def FluentCommand.read (s : FluentCommand) : FluentCommand :=
  { s with shouldBeSilent := true }

/-- One whole execution that spawns successfully and terminates: start
(timestamp and working-directory resolution), spawn notification, the
chunk stream, then the `close` settlement.  Returns the final state, the
full effect trace and the settled outcome. -/
def FluentCommand.execute (s : FluentCommand) (procCwd : String)
    (startTime : Nat) (events : List (Channel × String)) (endTime : Nat)
    (code : Option Int) (sig : Option String) :
    FluentCommand × List Effect ×
      Except FluentCommandError FluentCommandSuccess :=
  let s1 := s.runStart procCwd startTime
  let spawnEffects := s1.onSpawnEvent
  let p := s1.processChunks events
  let q := p.1.onClose endTime code sig
  (q.1, spawnEffects ++ p.2 ++ q.2.1, q.2.2)

/-! ### Builder call sequences (for the argument-vector claim) -/

/-- One argument- or option-adding call on the builder. -/
inductive BuilderCall where
  | argsCall (anArg : String) (extraArgs : List String)
  | optCall (key : String) (value : Option OptValue)
  | optionCall (key : String) (value : Option OptValue)
deriving DecidableEq, Repr

/-- The tokens an option value contributes, per the specification: a
non-empty string value or a stringified number, an empty string nothing. -/
def valueTokens : Option OptValue → List String
  | some (.str v) => if v.length > 0 then [v] else []
  | some (.num n) => [toString n]
  | none => []

/-- The tokens one builder call contributes, per the specification. -/
def callTokens : BuilderCall → List String
  | .argsCall a rest => a :: rest
  | .optCall k v => (if k.length > 0 then ["-" ++ k] else []) ++ valueTokens v
  | .optionCall k v => (if k.length > 0 then ["--" ++ k] else []) ++ valueTokens v

/-- Interpret one builder call on the builder state. -/
def applyCall (s : FluentCommand) : BuilderCall → FluentCommand
  | .argsCall a rest => s.args a rest
  | .optCall k v => s.opt k v
  | .optionCall k v => s.option k v

/-- Interpret a sequence of builder calls, in order. -/
def applyCalls (s : FluentCommand) (calls : List BuilderCall) : FluentCommand :=
  calls.foldl applyCall s

/-! ### Chunk-stream helpers -/

/-- Concatenation of a list of chunks. -/
def concatChunks : List String → String
  | [] => ""
  | d :: rest => d ++ concatChunks rest

/-- Concatenation of the chunks of one channel, in arrival order. -/
def chunksOf (ch : Channel) : List (Channel × String) → String
  | [] => ""
  | (ch0, d) :: rest => (if ch0 = ch then d else "") ++ chunksOf ch rest

/-- Concatenation of all chunks of both channels, in arrival order. -/
def allChunks : List (Channel × String) → String
  | [] => ""
  | (_, d) :: rest => d ++ allChunks rest

/-! ### Helper lemmas -/

lemma dash_one : String.mk (List.replicate 1 (Char.ofNat 45)) = "-" := rfl

lemma dash_two : String.mk (List.replicate 2 (Char.ofNat 45)) = "--" := rfl

lemma applyCall_commandArgs (s : FluentCommand) (c : BuilderCall) :
    (applyCall s c).commandArgs = s.commandArgs ++ callTokens c := by
  cases c with
  | argsCall a rest => rfl
  | optCall k v =>
      show (s.addOptionPair 1 k v).commandArgs = _
      unfold FluentCommand.addOptionPair
      rcases v with _ | v
      · by_cases hk : k.length > 0 <;>
          simp [hk, FluentCommand.addArgs, callTokens, valueTokens, dash_one]
      · cases v with
        | str v =>
            by_cases hk : k.length > 0 <;> by_cases hv : v.length > 0 <;>
              simp [hk, hv, FluentCommand.addArgs, callTokens, valueTokens,
                dash_one]
        | num n =>
            by_cases hk : k.length > 0 <;>
              simp [hk, FluentCommand.addArgs, callTokens, valueTokens,
                dash_one]
  | optionCall k v =>
      show (s.addOptionPair 2 k v).commandArgs = _
      unfold FluentCommand.addOptionPair
      rcases v with _ | v
      · by_cases hk : k.length > 0 <;>
          simp [hk, FluentCommand.addArgs, callTokens, valueTokens, dash_two]
      · cases v with
        | str v =>
            by_cases hk : k.length > 0 <;> by_cases hv : v.length > 0 <;>
              simp [hk, hv, FluentCommand.addArgs, callTokens, valueTokens,
                dash_two]
        | num n =>
            by_cases hk : k.length > 0 <;>
              simp [hk, FluentCommand.addArgs, callTokens, valueTokens,
                dash_two]

lemma applyCalls_commandArgs (calls : List BuilderCall) :
    ∀ s : FluentCommand,
      (applyCalls s calls).commandArgs
        = s.commandArgs ++ (calls.map callTokens).flatten := by
  induction calls with
  | nil => intro s; simp [applyCalls]
  | cons c rest ih =>
      intro s
      show (applyCalls (applyCall s c) rest).commandArgs = _
      rw [ih, applyCall_commandArgs]
      simp

/-! ### Claim theorems -/

/-- C3: for every sequence of constructor, `args`, `opt` and `option`
calls, the final argument vector is the concatenation, in call order, of
the constructor's initial arguments and the tokens each call contributes
(`callTokens`: literal tokens for `args`; for `opt`, `-key` when the key
is non-empty followed by the value token when it is a non-empty string or
a number, numbers stringified, empty-string values contributing nothing;
`option` identically with a `--` prefix). -/
theorem c3_argument_vector_concatenation (exe : String) (init : List String)
    (calls : List BuilderCall) :
    (applyCalls (fcmd exe init) calls).commandArgs
      = init ++ (calls.map callTokens).flatten :=
  applyCalls_commandArgs calls (fcmd exe init)

/-- C9: a later `cwd(base, ...extras)` call entirely replaces the fragments
recorded by an earlier one (the base is overwritten and the extra-fragment
list replaced, not appended to), and a `cwd` call leaves the executable,
the argument vector and all registered observers unchanged. -/
theorem c9_cwd_replaces_fragments (s : FluentCommand) (b1 b2 : String)
    (e1 e2 : List String) :
    (s.cwd b1 e1).cwd b2 e2 = s.cwd b2 e2 ∧
    (s.cwd b1 e1).cwdPath = b1 ∧
    (s.cwd b1 e1).extraCwdPathPieces = e1 ∧
    (s.cwd b1 e1).executable = s.executable ∧
    (s.cwd b1 e1).commandArgs = s.commandArgs ∧
    (s.cwd b1 e1).spawnHandler = s.spawnHandler ∧
    (s.cwd b1 e1).stdoutHandler = s.stdoutHandler ∧
    (s.cwd b1 e1).stderrHandler = s.stderrHandler ∧
    (s.cwd b1 e1).outputHandler = s.outputHandler :=
  ⟨rfl, rfl, rfl, rfl, rfl, rfl, rfl, rfl, rfl⟩

/-- C8: each observer channel holds at most one callback: a registration
replaces any earlier one for that channel, one chunk invokes at most one
callback per channel (and that callback is the registered one), and one
spawn event invokes at most the single spawn callback. -/
theorem c8_single_observer_slot (s : FluentCommand) (h1 h2 : Nat)
    (ch : Channel) (d : String) :
    (s.onStdout h1).onStdout h2 = s.onStdout h2 ∧
    (s.onStderr h1).onStderr h2 = s.onStderr h2 ∧
    (s.onOutput h1).onOutput h2 = s.onOutput h2 ∧
    (s.onSpawn h1).onSpawn h2 = s.onSpawn h2 ∧
    (s.onChunk ch d).2.countP
        (fun e => e matches Effect.stdoutHandlerCall _ _) ≤ 1 ∧
    (s.onChunk ch d).2.countP
        (fun e => e matches Effect.stderrHandlerCall _ _) ≤ 1 ∧
    (s.onChunk ch d).2.countP
        (fun e => e matches Effect.outputHandlerCall _ _) ≤ 1 ∧
    (s.onChunk ch d).2.all
        (fun e =>
          match e with
          | Effect.stdoutHandlerCall h _ => s.stdoutHandler == some h
          | Effect.stderrHandlerCall h _ => s.stderrHandler == some h
          | Effect.outputHandlerCall h _ => s.outputHandler == some h
          | _ => true) = true ∧
    s.onSpawnEvent.length ≤ 1 := by
  refine ⟨rfl, rfl, rfl, rfl, ?_, ?_, ?_, ?_, ?_⟩ <;>
    [skip; skip; skip; skip;
     · unfold FluentCommand.onSpawnEvent
       rcases s.spawnHandler <;> simp] <;>
  · unfold FluentCommand.onChunk
    cases ch <;>
      rcases hso : s.stdoutHandler with _ | a <;>
      rcases hse : s.stderrHandler with _ | b <;>
      rcases hoo : s.outputHandler with _ | c <;>
      rcases hb : s.shouldBeSilent <;>
      simp_all [List.countP_cons]

/-- C1: on normal process termination, exit code exactly 0 settles the
result as Success; any other exit code, or termination purely by a signal
(exit code absent), settles it as Failure, and the Failure outcome's
optional fields equal exactly the observed exit code and signal (absent
when unknown). -/
theorem c1_close_settlement (s : FluentCommand) (now : Nat)
    (exitCode : Option Int) (sig : Option String) :
    (s.onClose now exitCode sig).2.2
      = (if exitCode = some 0 then
          Except.ok
            (({ s with code := exitCode, signal := sig } :
                FluentCommand).commandSuccess now)
        else
          Except.error
            (({ s with code := exitCode, signal := sig } :
                FluentCommand).commandError now)) ∧
    (({ s with code := exitCode, signal := sig } :
        FluentCommand).commandError now).code = exitCode ∧
    (({ s with code := exitCode, signal := sig } :
        FluentCommand).commandError now).signal = sig := by
  refine ⟨?_, rfl, rfl⟩
  unfold FluentCommand.onClose FluentCommand.errorMapper
  split <;> rfl

/-- C2: on a spawn failure reported with a string error code, the outcome
is a Failure whose exit-code field is the sentinel `SPAWN_MISSING_EXE_CODE`
(equal to −2, distinct from a normal nonzero exit), and the diagnostic line
`<platform error code>: <error message>` is appended to the stderr
accumulator before the outcome is built, so the outcome's stderr field is
the trimmed extended accumulator. -/
theorem c2_spawn_failure_sentinel (s : FluentCommand) (now : Nat)
    (c m : String) :
    SPAWN_MISSING_EXE_CODE = -2 ∧
    (s.errorMapper now (.errnoErr c m)).2.2.code = some (-2) ∧
    (s.errorMapper now (.errnoErr c m)).1.stderrContents
      = s.stderrContents ++ (c ++ ": " ++ m) ∧
    (s.errorMapper now (.errnoErr c m)).2.2.stderr
      = trimEnd (s.stderrContents ++ (c ++ ": " ++ m)) :=
  ⟨rfl, rfl, rfl, rfl⟩

/-- C7: trailing whitespace is removed from the stdout, stderr and
combined fields exactly when the outcome record is built, for Success and
Failure alike, while every chunk carried by an effect of a chunk-handling
step is the chunk exactly as received, never trimmed. -/
theorem c7_trim_only_at_settlement (s : FluentCommand) (now : Nat)
    (ch : Channel) (d : String) :
    (s.commandSuccess now).stdout = trimEnd s.stdoutContents ∧
    (s.commandSuccess now).stderr = trimEnd s.stderrContents ∧
    (s.commandSuccess now).output = trimEnd s.outputContents ∧
    (s.commandError now).stdout = trimEnd s.stdoutContents ∧
    (s.commandError now).stderr = trimEnd s.stderrContents ∧
    (s.commandError now).output = trimEnd s.outputContents ∧
    (s.onChunk ch d).2.all (fun e => e.chunkText == some d) = true := by
  refine ⟨rfl, rfl, rfl, rfl, rfl, rfl, ?_⟩
  unfold FluentCommand.onChunk
  cases ch <;>
    rcases hso : s.stdoutHandler <;>
    rcases hse : s.stderrHandler <;>
    rcases hoo : s.outputHandler <;>
    rcases hb : s.shouldBeSilent <;>
    simp_all [Effect.chunkText]

lemma onChunk_fst_stdout (s : FluentCommand) (d : String) :
    (s.onChunk .stdout d).1
      = { s with
          stdoutContents := s.stdoutContents ++ d
          outputContents := s.outputContents ++ d } := rfl

lemma onChunk_fst_stderr (s : FluentCommand) (d : String) :
    (s.onChunk .stderr d).1
      = { s with
          stderrContents := s.stderrContents ++ d
          outputContents := s.outputContents ++ d } := rfl

lemma processChunks_stdoutContents (events : List (Channel × String)) :
    ∀ s : FluentCommand,
      (s.processChunks events).1.stdoutContents
        = s.stdoutContents ++ chunksOf Channel.stdout events := by
  induction events with
  | nil => intro s; simp [FluentCommand.processChunks, chunksOf]
  | cons e rest ih =>
      intro s
      obtain ⟨ch, d⟩ := e
      show ((s.onChunk ch d).1.processChunks rest).1.stdoutContents = _
      cases ch <;>
        rw [ih] <;>
        simp [onChunk_fst_stdout, onChunk_fst_stderr, chunksOf,
          String.append_assoc]

lemma processChunks_stderrContents (events : List (Channel × String)) :
    ∀ s : FluentCommand,
      (s.processChunks events).1.stderrContents
        = s.stderrContents ++ chunksOf Channel.stderr events := by
  induction events with
  | nil => intro s; simp [FluentCommand.processChunks, chunksOf]
  | cons e rest ih =>
      intro s
      obtain ⟨ch, d⟩ := e
      show ((s.onChunk ch d).1.processChunks rest).1.stderrContents = _
      cases ch <;>
        rw [ih] <;>
        simp [onChunk_fst_stdout, onChunk_fst_stderr, chunksOf,
          String.append_assoc]

lemma processChunks_outputContents (events : List (Channel × String)) :
    ∀ s : FluentCommand,
      (s.processChunks events).1.outputContents
        = s.outputContents ++ allChunks events := by
  induction events with
  | nil => intro s; simp [FluentCommand.processChunks, allChunks]
  | cons e rest ih =>
      intro s
      obtain ⟨ch, d⟩ := e
      show ((s.onChunk ch d).1.processChunks rest).1.outputContents = _
      cases ch <;>
        rw [ih] <;>
        simp [onChunk_fst_stdout, onChunk_fst_stderr, allChunks,
          String.append_assoc]

/-- C5: after any sequence of chunk arrivals, the combined accumulator has
grown by the concatenation, in arrival order, of all chunks of both
channels, the stdout accumulator by the stdout-only chunks and the stderr
accumulator by the stderr-only chunks; and a single chunk-handling step
preserves exactly this shape (it appends the chunk to its own channel's
accumulator and to the combined one and leaves the other unchanged). -/
theorem c5_accumulator_invariant (s : FluentCommand)
    (events : List (Channel × String)) (d : String) :
    (s.processChunks events).1.stdoutContents
      = s.stdoutContents ++ chunksOf Channel.stdout events ∧
    (s.processChunks events).1.stderrContents
      = s.stderrContents ++ chunksOf Channel.stderr events ∧
    (s.processChunks events).1.outputContents
      = s.outputContents ++ allChunks events ∧
    (s.onChunk .stdout d).1.stdoutContents = s.stdoutContents ++ d ∧
    (s.onChunk .stdout d).1.stderrContents = s.stderrContents ∧
    (s.onChunk .stdout d).1.outputContents = s.outputContents ++ d ∧
    (s.onChunk .stderr d).1.stderrContents = s.stderrContents ++ d ∧
    (s.onChunk .stderr d).1.stdoutContents = s.stdoutContents ∧
    (s.onChunk .stderr d).1.outputContents = s.outputContents ++ d :=
  ⟨processChunks_stdoutContents events s, processChunks_stderrContents events s,
   processChunks_outputContents events s, rfl, rfl, rfl, rfl, rfl, rfl⟩

lemma resolvePath_append (anchor : String) (l1 l2 : List String) :
    resolvePath anchor (l1 ++ l2) = resolvePath (resolvePath anchor l1) l2 := by
  unfold resolvePath
  exact List.foldl_append resolveJoin anchor l1 l2

lemma resolveJoin_absolute (acc frag : String)
    (h : isAbsolutePath frag = true) : resolveJoin acc frag = frag := by
  have hne : frag ≠ "" := by
    intro he
    subst he
    exact absurd h (by decide)
  unfold resolveJoin
  simp [hne, h]

/-- C6: the working directory is resolved exactly once, at execution
start, anchored at the process's own current directory and applying the
base fragment and each extra fragment in order with join semantics under
which an absolute fragment at any position replaces everything resolved
before it; `cwd(...)` itself performs no resolution (it leaves the
resolved working directory untouched). -/
theorem c6_cwd_resolution (s : FluentCommand) (procCwd : String) (t : Nat)
    (b : String) (extras : List String) (anchor frag : String)
    (l1 l2 : List String) (habs : isAbsolutePath frag = true) :
    (s.runStart procCwd t).resolvedCwd
      = resolvePath (resolveAbs procCwd) (s.cwdPath :: s.extraCwdPathPieces) ∧
    (s.cwd b extras).resolvedCwd = s.resolvedCwd ∧
    resolvePath anchor (l1 ++ frag :: l2) = resolvePath frag l2 := by
  refine ⟨rfl, rfl, ?_⟩
  have hsplit : resolvePath anchor (l1 ++ frag :: l2)
      = resolvePath (resolveJoin (resolvePath anchor l1) frag) l2 := by
    unfold resolvePath
    rw [List.foldl_append]
    rfl
  rw [hsplit, resolveJoin_absolute _ _ habs]

/-- Witness for C6 at a concrete builder state, anchor and fragment list. -/
theorem c6_cwd_resolution_witness :
    ((((fcmd "git" []).cwd "proj" ["sub"]).runStart "/home/user" 3).resolvedCwd
        = resolvePath (resolveAbs "/home/user") ("proj" :: ["sub"])) ∧
    ((((fcmd "git" []).cwd "proj" ["sub"]).cwd "b0" []).resolvedCwd
        = ((fcmd "git" []).cwd "proj" ["sub"]).resolvedCwd) ∧
    resolvePath "/q" (["a"] ++ "/b" :: ["c"]) = resolvePath "/b" ["c"] :=
  c6_cwd_resolution ((fcmd "git" []).cwd "proj" ["sub"]) "/home/user" 3
    "b0" [] "/q" "/b" ["a"] ["c"] (by decide)

lemma onChunk_silent_fst (s : FluentCommand) (ch : Channel) (d : String)
    (b : Bool) :
    (({ s with shouldBeSilent := b } : FluentCommand).onChunk ch d).1
      = { (s.onChunk ch d).1 with shouldBeSilent := b } := by
  cases ch <;> rfl

lemma onChunk_silent_true_no_mirror (s : FluentCommand) (ch : Channel)
    (d : String) :
    ((({ s with shouldBeSilent := true } : FluentCommand).onChunk ch d).2.filter
        Effect.isMirror = []) ∧
    ((({ s with shouldBeSilent := true } : FluentCommand).onChunk ch d).2.filter
        (fun e => !e.isMirror)
      = (({ s with shouldBeSilent := true } : FluentCommand).onChunk ch d).2) := by
  unfold FluentCommand.onChunk
  cases ch <;>
    rcases hso : s.stdoutHandler <;>
    rcases hse : s.stderrHandler <;>
    rcases hoo : s.outputHandler <;>
    simp_all [Effect.isMirror]

lemma onChunk_silent_false_snd (s : FluentCommand) (ch : Channel)
    (d : String) :
    (({ s with shouldBeSilent := false } : FluentCommand).onChunk ch d).2
      = (({ s with shouldBeSilent := true } : FluentCommand).onChunk ch d).2
          ++ [Effect.mirrorWrite ch d] := by
  unfold FluentCommand.onChunk
  cases ch <;>
    rcases hso : s.stdoutHandler <;>
    rcases hse : s.stderrHandler <;>
    rcases hoo : s.outputHandler <;>
    simp_all

lemma filter_nonmirror_single (ch : Channel) (d : String) :
    [Effect.mirrorWrite ch d].filter (fun e => !e.isMirror) = [] := rfl

lemma filter_mirror_single (ch : Channel) (d : String) :
    [Effect.mirrorWrite ch d].filter Effect.isMirror
      = [Effect.mirrorWrite ch d] := rfl

lemma processChunks_silent (events : List (Channel × String)) :
    ∀ s : FluentCommand,
      ((({ s with shouldBeSilent := false } :
            FluentCommand).processChunks events).1
        = { (({ s with shouldBeSilent := true } :
                FluentCommand).processChunks events).1 with
            shouldBeSilent := false }) ∧
      ((({ s with shouldBeSilent := false } :
            FluentCommand).processChunks events).2.filter (fun e => !e.isMirror)
        = (({ s with shouldBeSilent := true } :
              FluentCommand).processChunks events).2) ∧
      ((({ s with shouldBeSilent := true } :
            FluentCommand).processChunks events).2.filter Effect.isMirror
        = []) ∧
      ((({ s with shouldBeSilent := false } :
            FluentCommand).processChunks events).2.filter Effect.isMirror
        = events.map (fun p => Effect.mirrorWrite p.1 p.2)) := by
  induction events with
  | nil => intro s; exact ⟨rfl, rfl, rfl, rfl⟩
  | cons e rest ih =>
      intro s
      obtain ⟨ch, d⟩ := e
      simp only [FluentCommand.processChunks]
      rw [onChunk_silent_fst s ch d false, onChunk_silent_fst s ch d true,
        onChunk_silent_false_snd s ch d]
      obtain ⟨ih1, ih2, ih3, ih4⟩ := ih (s.onChunk ch d).1
      obtain ⟨hm, hnm⟩ := onChunk_silent_true_no_mirror s ch d
      refine ⟨ih1, ?_, ?_, ?_⟩
      · rw [List.filter_append, List.filter_append, hnm, ih2,
          filter_nonmirror_single]
        simp
      · rw [List.filter_append, hm, ih3]
        rfl
      · rw [List.filter_append, List.filter_append, hm, filter_mirror_single,
          ih4]
        simp

lemma onClose_fst (x : FluentCommand) (now : Nat) (c : Option Int)
    (g : Option String) :
    (x.onClose now c g).1 = { x with code := c, signal := g } := by
  unfold FluentCommand.onClose FluentCommand.errorMapper
  split <;> rfl

lemma onClose_effects (x : FluentCommand) (now : Nat) (c : Option Int)
    (g : Option String) :
    (x.onClose now c g).2.1 = [] := by
  unfold FluentCommand.onClose FluentCommand.errorMapper
  split <;> rfl

lemma onClose_outcome_silent (x : FluentCommand) (b : Bool) (now : Nat)
    (c : Option Int) (g : Option String) :
    (({ x with shouldBeSilent := b } : FluentCommand).onClose now c g).2.2
      = (x.onClose now c g).2.2 := by
  unfold FluentCommand.onClose FluentCommand.errorMapper
  split <;> rfl

lemma onSpawnEvent_silent (x : FluentCommand) (b : Bool) :
    ({ x with shouldBeSilent := b } : FluentCommand).onSpawnEvent
      = x.onSpawnEvent := rfl

lemma runStart_silent (s : FluentCommand) (pc : String) (t : Nat) (b : Bool) :
    ({ s with shouldBeSilent := b } : FluentCommand).runStart pc t
      = { s.runStart pc t with shouldBeSilent := b } := rfl

lemma onSpawnEvent_no_mirror (x : FluentCommand) :
    (x.onSpawnEvent.filter Effect.isMirror = []) ∧
    (x.onSpawnEvent.filter (fun e => !e.isMirror) = x.onSpawnEvent) := by
  unfold FluentCommand.onSpawnEvent
  rcases h : x.spawnHandler <;> simp [Effect.isMirror]

/-- C4: for one and the same stream of child-process events, `run()` and
`read()` leave identical stdout, stderr and combined accumulators, settle
in the same outcome, and produce the same non-mirror effect trace (the
same observer invocations); the only difference is that `run()` mirrors
every received chunk, in order, to the controlling process's own streams
while `read()` mirrors nothing. -/
theorem c4_run_read_equivalence (s : FluentCommand) (procCwd : String)
    (t0 : Nat) (events : List (Channel × String)) (t1 : Nat)
    (exitCode : Option Int) (sig : Option String) :
    (s.run.execute procCwd t0 events t1 exitCode sig).1.stdoutContents
      = (s.read.execute procCwd t0 events t1 exitCode sig).1.stdoutContents ∧
    (s.run.execute procCwd t0 events t1 exitCode sig).1.stderrContents
      = (s.read.execute procCwd t0 events t1 exitCode sig).1.stderrContents ∧
    (s.run.execute procCwd t0 events t1 exitCode sig).1.outputContents
      = (s.read.execute procCwd t0 events t1 exitCode sig).1.outputContents ∧
    (s.run.execute procCwd t0 events t1 exitCode sig).2.2
      = (s.read.execute procCwd t0 events t1 exitCode sig).2.2 ∧
    (s.run.execute procCwd t0 events t1 exitCode sig).2.1.filter
        (fun e => !e.isMirror)
      = (s.read.execute procCwd t0 events t1 exitCode sig).2.1 ∧
    (s.read.execute procCwd t0 events t1 exitCode sig).2.1.filter
        Effect.isMirror = [] ∧
    (s.run.execute procCwd t0 events t1 exitCode sig).2.1.filter
        Effect.isMirror
      = events.map (fun p => Effect.mirrorWrite p.1 p.2) := by
  obtain ⟨h1, h2, h3, h4⟩ := processChunks_silent events (s.runStart procCwd t0)
  obtain ⟨hs1, hs2⟩ := onSpawnEvent_no_mirror (s.runStart procCwd t0)
  simp only [FluentCommand.execute, FluentCommand.run, FluentCommand.read,
    runStart_silent, onSpawnEvent_silent, onClose_fst, onClose_effects]
  refine ⟨?_, ?_, ?_, ?_, ?_, ?_, ?_⟩
  · rw [h1]
  · rw [h1]
  · rw [h1]
  · rw [h1, onClose_outcome_silent]
  · rw [List.filter_append, List.filter_append, hs2, h2]
    simp
  · rw [List.filter_append, List.filter_append, hs1, h3]
    rfl
  · rw [List.filter_append, List.filter_append, hs1, h4]
    simp

/-- C10: on a spawn failure the diagnostic line is routed through the
ordinary chunk path: the error mapper's post state and effect trace are
exactly those of `#onChunk` on the stderr channel (after recording the
sentinel code), so the line is also appended to the combined accumulator,
delivered as a chunk to the registered stderr and combined-output
observers, and, when the execution was started with `run()` (silent flag
cleared), mirrored to the controlling process's stderr stream. -/
theorem c10_spawn_failure_chunk_path (s : FluentCommand) (now : Nat)
    (c m : String) (h1 h2 : Nat) :
    ((s.errorMapper now (.errnoErr c m)).1
        = (({ s with code := some SPAWN_MISSING_EXE_CODE } :
            FluentCommand).onChunk .stderr (c ++ ": " ++ m)).1) ∧
    ((s.errorMapper now (.errnoErr c m)).2.1
        = (({ s with code := some SPAWN_MISSING_EXE_CODE } :
            FluentCommand).onChunk .stderr (c ++ ": " ++ m)).2) ∧
    ((s.errorMapper now (.errnoErr c m)).1.outputContents
        = s.outputContents ++ (c ++ ": " ++ m)) ∧
    (s.stderrHandler = some h1 →
        Effect.stderrHandlerCall h1 (c ++ ": " ++ m)
          ∈ (s.errorMapper now (.errnoErr c m)).2.1) ∧
    (s.outputHandler = some h2 →
        Effect.outputHandlerCall h2 (c ++ ": " ++ m)
          ∈ (s.errorMapper now (.errnoErr c m)).2.1) ∧
    (s.shouldBeSilent = false →
        Effect.mirrorWrite .stderr (c ++ ": " ++ m)
          ∈ (s.errorMapper now (.errnoErr c m)).2.1) := by
  refine ⟨rfl, rfl, rfl, ?_, ?_, ?_⟩ <;>
    intro hh <;>
    simp [FluentCommand.errorMapper, FluentCommand.onChunk, hh]

/-- Witness for C10 at a concrete builder state with a stderr observer, a
combined-output observer and `run()` mode. -/
theorem c10_spawn_failure_chunk_path_witness :
    (Effect.stderrHandlerCall 1 ("ENOENT" ++ ": " ++ "spawn missing")
      ∈ ((((fcmd "node" []).onStderr 1).onOutput 2).run.errorMapper 7
          (.errnoErr "ENOENT" "spawn missing")).2.1) ∧
    (Effect.outputHandlerCall 2 ("ENOENT" ++ ": " ++ "spawn missing")
      ∈ ((((fcmd "node" []).onStderr 1).onOutput 2).run.errorMapper 7
          (.errnoErr "ENOENT" "spawn missing")).2.1) ∧
    (Effect.mirrorWrite .stderr ("ENOENT" ++ ": " ++ "spawn missing")
      ∈ ((((fcmd "node" []).onStderr 1).onOutput 2).run.errorMapper 7
          (.errnoErr "ENOENT" "spawn missing")).2.1) := by
  have h := c10_spawn_failure_chunk_path
    ((((fcmd "node" []).onStderr 1).onOutput 2).run) 7
    "ENOENT" "spawn missing" 1 2
  exact ⟨h.2.2.2.1 rfl, h.2.2.2.2.1 rfl, h.2.2.2.2.2 rfl⟩
